import Mathlib

/-!
Shallow embedding of `src/arcsecond/uploader/uploader.py`: a single-file
upload orchestrator that resolves a remote dataset, streams the file to the
server, and tags the created remote record, with a one-retry policy per
phase. Remote API calls are modelled by a response oracle (`ApiBehavior`)
indexed by how many calls of that family were already issued, and each
phase records its observable actions (phase entry, API calls with their
payloads, sleeps) in a trace.
-/

namespace ArcsecondUploader

/-- Coarse status values, as listed in `constants.Status` (module not under
src/; the member list is taken from the specification and from their uses in
`uploader.py`). -/
inductive Status where
  | NEW
  | PREPARING
  | UPLOADING
  | FINISHING
  | OK
  | SKIPPED
  | ERROR
deriving DecidableEq, Repr

/-- Fine-grained status values, as listed in `constants.Substatus` (module
not under src/; the member list is taken from the specification and from
their uses in `uploader.py`). -/
inductive Substatus where
  | PENDING
  | CHECKING
  | UPLOADING
  | TAGGING
  | ALREADY_SYNCED
  | DONE
  | ERROR
deriving DecidableEq, Repr

/-- The three-slot status attached to the uploader: `self._status` is the
Python list `[Status, Substatus, detail]`, with the detail slot always
`None` in the source. -/
def StatusTriple := Status × Substatus × Option String
deriving DecidableEq

/-- Modelled from the spec: `UploadContext` (file `context.py`, not under
src/). Read accessors for the dataset UUID and name, telescope UUID,
validation flag, raw-data default and custom tags, the flag telling whether
the dataset telescope association should be resynced, the configured
username, and a validator for custom tag lists that may itself fail
(modelled as a Boolean predicate). -/
structure UploadContext where
  is_validated : Bool
  dataset_uuid : Option String
  dataset_name : Option String
  should_update_dataset_with_telescope : Bool
  telescope_uuid : Option String
  custom_tags : Option (List String)
  is_raw_data : Bool
  username : String
  validate_tags : List String → Bool

/-- Python truthiness of an optional string field: `None` and the empty
string are falsy. -/
def strOptTruthy : Option String → Bool
  | none => false
  | some s => !s.isEmpty

/-- An error value returned by an API call: `error.status` and `str(error)`
as used at the raise site of the transfer error. -/
structure ApiError where
  status : String
  message : String
deriving DecidableEq, Repr

/-- The dataset record returned by the datasets endpoints; the orchestrator
only consumes the UUID written back into the context. -/
structure DatasetRecord where
  uuid : String
deriving DecidableEq, Repr

/-- The data-file record returned by `datafiles.create`; a Python dict whose
`pk` key is read with `.get` (hence optional). -/
structure DataFileRecord where
  pk : Option String
deriving DecidableEq, Repr

/-- Payload dict sent to the datasets endpoints. The outer `Option` on
`telescope` records whether the key is present at all; its value is the
(possibly `None`) telescope UUID of the context. -/
structure DatasetPayload where
  name : Option String
  telescope : Option (Option String)
deriving DecidableEq, Repr

/-- Payload dict sent to `datafiles.update` by the metadata phase. -/
structure MetadataPayload where
  tags : List String
  is_raw : Bool
  fsname : String
  fspath : String
deriving DecidableEq, Repr

/-- One remote API call, with the arguments the source passes. -/
inductive ApiCall where
  | datasetsUpdate (uuid : String) (payload : DatasetPayload)
  | datasetsRead (uuid : String)
  | datasetsCreate (payload : DatasetPayload)
  | datafilesCreate (datasetField : Option String) (fileName : String)
  | datafilesUpdate (pk : Option String) (payload : MetadataPayload)
deriving DecidableEq, Repr

/-- Observable event of one `upload_file` run: a phase entry (the log line
opening each phase), a remote API call, or a retry pause. -/
inductive Event where
  | phasePrepare
  | phaseUpload
  | phaseMetadata
  | api (c : ApiCall)
  | sleep (seconds : Nat)
deriving DecidableEq, Repr

/-- The remote service, as a response oracle: the n-th call of each family
(in issue order) receives the given response. -/
structure ApiBehavior where
  datasets : Nat → Except ApiError DatasetRecord
  datafilesCreate : Nat → Except ApiError DataFileRecord
  datafilesUpdate : Nat → Except ApiError Unit

/-- Per-uploader constants: root path, file base name, hostname and client
version, as interpolated into the multipart body and the tag list. -/
structure UploaderEnv where
  root_path : String
  file_name : String
  hostname : String
  version : String

/-- The error kinds raised by the uploader, from `errors.py` (not under
src/; the kinds and their roles are fixed by the import list and raise
sites of `uploader.py` and by the specification). `customTagsInvalid` is
modelled from the spec: the custom-tag validator of the context may itself
fail, with an error kind distinct from the five named ones. -/
inductive UploadError where
  | invalidatedContext
  | datasetCheck (msg : String)
  | datasetPreparation (msg : String)
  | remoteFile (msg : String)
  | remoteFileMetadata (msg : String)
  | customTagsInvalid
deriving DecidableEq, Repr

/-- Mutable state of one `DataFileUploader` during `upload_file`, plus the
event trace. -/
structure UploaderState where
  context : UploadContext
  status : StatusTriple
  datafile : Option DataFileRecord
  trace : List Event

def Event.isDatasetApi : Event → Bool
  | .api (.datasetsUpdate _ _) => true
  | .api (.datasetsRead _) => true
  | .api (.datasetsCreate _) => true
  | _ => false

def Event.isDatasetsCreateApi : Event → Bool
  | .api (.datasetsCreate _) => true
  | _ => false

def Event.isDatafilesCreateApi : Event → Bool
  | .api (.datafilesCreate _ _) => true
  | _ => false

def Event.isDatafilesUpdateApi : Event → Bool
  | .api (.datafilesUpdate _ _) => true
  | _ => false

def Event.isSleep : Event → Bool
  | .sleep _ => true
  | _ => false

def Event.isPhasePrepare : Event → Bool
  | .phasePrepare => true
  | _ => false

def Event.isPhaseUpload : Event → Bool
  | .phaseUpload => true
  | _ => false

def Event.isPhaseMetadata : Event → Bool
  | .phaseMetadata => true
  | _ => false

def countDatasetApi (t : List Event) : Nat := (t.filter Event.isDatasetApi).length

def countDatasetsCreateApi (t : List Event) : Nat := (t.filter Event.isDatasetsCreateApi).length

def countDatafilesCreateApi (t : List Event) : Nat := (t.filter Event.isDatafilesCreateApi).length

def countDatafilesUpdateApi (t : List Event) : Nat := (t.filter Event.isDatafilesUpdateApi).length

def countPhasePrepare (t : List Event) : Nat := (t.filter Event.isPhasePrepare).length

def countPhaseUpload (t : List Event) : Nat := (t.filter Event.isPhaseUpload).length

def countPhaseMetadata (t : List Event) : Nat := (t.filter Event.isPhaseMetadata).length

def sleepEvents (t : List Event) : List Event := t.filter Event.isSleep

/-- Whether the first list starts with the second as an initial segment. -/
def startsWith : List Char → List Char → Bool
  | [], _ => true
  | _ :: _, [] => false
  | a :: as, b :: bs => a == b && startsWith as bs

/-- Whether `needle` occurs contiguously inside the list. -/
def containsSeq (needle : List Char) : List Char → Bool
  | [] => needle.isEmpty
  | b :: bs => startsWith needle (b :: bs) || containsSeq needle bs

/-- Python substring test `needle in hay` on strings. -/
def strContains (needle hay : String) : Bool := containsSeq needle.data hay.data

/-- Modelled from the spec: `UploadContext.update_dataset` (file
`context.py`, not under src/) writes the dataset record returned by the
create call back into the shared context so subsequent phases see the new
UUID. -/
def updateDataset (ctx : UploadContext) (d : DatasetRecord) : UploadContext :=
  { ctx with dataset_uuid := some d.uuid }

/-- `DataFileUploader._prepare_dataset`: branch on the truthiness of the
dataset UUID, then of the dataset name; issue one update, read or create
call; wrap an API error as a dataset-preparation error; on the create
branch write the returned record back into the context; with neither UUID
nor name raise a dataset-check error without any API call. -/
def prepareDataset (api : ApiBehavior) (s : UploaderState) : UploaderState × Option UploadError :=
  let s := { s with
    status := (Status.PREPARING, Substatus.CHECKING, none),
    trace := s.trace ++ [Event.phasePrepare] }
  if strOptTruthy s.context.dataset_uuid then
    let uuid := s.context.dataset_uuid.getD ""
    let resp := api.datasets (countDatasetApi s.trace)
    let call :=
      if s.context.should_update_dataset_with_telescope then
        ApiCall.datasetsUpdate uuid { name := none, telescope := some s.context.telescope_uuid }
      else
        ApiCall.datasetsRead uuid
    let s := { s with trace := s.trace ++ [Event.api call] }
    match resp with
    | .error e => (s, some (UploadError.datasetPreparation e.message))
    | .ok _ => (s, none)
  else if strOptTruthy s.context.dataset_name then
    let payload : DatasetPayload :=
      { name := s.context.dataset_name,
        telescope :=
          if s.context.should_update_dataset_with_telescope then
            some s.context.telescope_uuid
          else none }
    let resp := api.datasets (countDatasetApi s.trace)
    let s := { s with trace := s.trace ++ [Event.api (ApiCall.datasetsCreate payload)] }
    match resp with
    | .error e => (s, some (UploadError.datasetPreparation e.message))
    | .ok d => ({ s with context := updateDataset s.context d }, none)
  else
    (s, some (UploadError.datasetCheck "No dataset specified."))

/-- The duplicate-detection needle of `_perform_upload`. -/
def duplicateNeedle : String := "already exists in dataset"

/-- `DataFileUploader._perform_upload`: set status to uploading, issue one
`datafiles.create` with the multipart fields (dataset UUID and file name);
on success keep the returned record; on an error whose message contains the
duplicate needle set the skipped status and return without raising; on any
other error set the error status and raise a transfer error carrying the
server status code and message. -/
def performUpload (env : UploaderEnv) (api : ApiBehavior) (s : UploaderState) :
    UploaderState × Option UploadError :=
  let s := { s with
    status := (Status.UPLOADING, Substatus.UPLOADING, none),
    trace := s.trace ++ [Event.phaseUpload] }
  let resp := api.datafilesCreate (countDatafilesCreateApi s.trace)
  let s := { s with
    trace := s.trace ++ [Event.api (ApiCall.datafilesCreate s.context.dataset_uuid env.file_name)] }
  match resp with
  | .ok d => ({ s with datafile := some d }, none)
  | .error e =>
    let s := { s with datafile := none }
    if strContains duplicateNeedle e.message then
      ({ s with status := (Status.SKIPPED, Substatus.ALREADY_SYNCED, none) }, none)
    else
      ({ s with status := (Status.ERROR, Substatus.ERROR, none) },
        some (UploadError.remoteFile (e.status ++ " - " ++ e.message)))

/-- The tag list of `_update_file_metadata`: root, origin, uploader and
version tags, a telescope tag when the context telescope UUID is truthy,
then the call-argument custom tags, falling back to the context custom tags
when the argument is `None`. -/
def buildTags (env : UploaderEnv) (ctx : UploadContext) (custom_tags : Option (List String)) :
    List String :=
  let tags := ["arcsecond|root|" ++ env.root_path,
               "arcsecond|origin|" ++ env.hostname,
               "arcsecond|uploader|" ++ ctx.username,
               "arcsecond|version|" ++ env.version]
  let tags :=
    if strOptTruthy ctx.telescope_uuid then
      tags ++ ["arcsecond|telescope|" ++ ctx.telescope_uuid.getD ""]
    else tags
  match custom_tags with
  | some ts => tags ++ ts
  | none =>
    match ctx.custom_tags with
    | some ts => tags ++ ts
    | none => tags

/-- The JSON payload of the `datafiles.update` call of
`_update_file_metadata`. -/
def metadataPayload (env : UploaderEnv) (ctx : UploadContext) (is_raw : Option Bool)
    (custom_tags : Option (List String)) : MetadataPayload :=
  { tags := buildTags env ctx custom_tags,
    is_raw := is_raw.getD ctx.is_raw_data,
    fsname := env.hostname,
    fspath := env.root_path }

/-- `DataFileUploader._update_file_metadata`: set the tagging status,
validate call-argument custom tags (validator modelled from the spec; its
failure is an error kind of its own), issue one `datafiles.update` against
the stored data-file primary key with the metadata payload; on error set
the error status and raise a metadata error, on success set the final OK
status. -/
def updateFileMetadata (env : UploaderEnv) (api : ApiBehavior) (is_raw : Option Bool)
    (custom_tags : Option (List String)) (s : UploaderState) :
    UploaderState × Option UploadError :=
  let s := { s with
    status := (Status.FINISHING, Substatus.TAGGING, none),
    trace := s.trace ++ [Event.phaseMetadata] }
  let validationFailed :=
    match custom_tags with
    | some ts => !s.context.validate_tags ts
    | none => false
  if validationFailed then
    (s, some UploadError.customTagsInvalid)
  else
    let payload := metadataPayload env s.context is_raw custom_tags
    let pk := s.datafile.bind (fun d => d.pk)
    let resp := api.datafilesUpdate (countDatafilesUpdateApi s.trace)
    let s := { s with trace := s.trace ++ [Event.api (ApiCall.datafilesUpdate pk payload)] }
    match resp with
    | .error e =>
      ({ s with status := (Status.ERROR, Substatus.ERROR, none) },
        some (UploadError.remoteFileMetadata e.message))
    | .ok _ => ({ s with status := (Status.OK, Substatus.DONE, none) }, none)

/-- The try/except blocks of `upload_file`: run the phase; on an error of
the caught kind, pause one second and run the phase once more, whose
outcome then stands; any other error propagates unretried. -/
def retryOnce (phase : UploaderState → UploaderState × Option UploadError)
    (retryable : UploadError → Bool) (s : UploaderState) :
    UploaderState × Option UploadError :=
  match phase s with
  | (s1, some e) =>
    if retryable e then
      phase { s1 with trace := s1.trace ++ [Event.sleep 1] }
    else (s1, some e)
  | (s1, none) => (s1, none)

def isRetryablePrep : UploadError → Bool
  | .datasetPreparation _ => true
  | _ => false

def isRetryableTransfer : UploadError → Bool
  | .remoteFile _ => true
  | _ => false

def isRetryableMetadata : UploadError → Bool
  | .remoteFileMetadata _ => true
  | _ => false

/-- Initial state of a `DataFileUploader`: fresh context, status
`[NEW, PENDING, None]`, no data-file record, empty trace. -/
def initState (ctx : UploadContext) : UploaderState :=
  { context := ctx,
    status := (Status.NEW, Substatus.PENDING, none),
    datafile := none,
    trace := [] }

/-- `DataFileUploader.upload_file`: reject an invalidated context before
anything else; then dataset preparation with one retry on a preparation
error; then the upload with one retry on a transfer error; if the status is
now SKIPPED return it at once, otherwise metadata tagging with one retry on
a metadata error; return the final status. The second component is the
exception propagated to the caller, `none` meaning a normal return. -/
def uploadFile (env : UploaderEnv) (api : ApiBehavior) (is_raw : Option Bool)
    (custom_tags : Option (List String)) (ctx : UploadContext) :
    UploaderState × Option UploadError :=
  let s0 := initState ctx
  if ctx.is_validated = false then
    (s0, some UploadError.invalidatedContext)
  else
    match retryOnce (prepareDataset api) isRetryablePrep s0 with
    | (s1, some e) => (s1, some e)
    | (s1, none) =>
      match retryOnce (performUpload env api) isRetryableTransfer s1 with
      | (s2, some e) => (s2, some e)
      | (s2, none) =>
        if s2.status.1 = Status.SKIPPED then
          (s2, none)
        else
          retryOnce (updateFileMetadata env api is_raw custom_tags) isRetryableMetadata s2

/-- The progress fraction computed by `percent_printer` inside
`__get_upload_data`: Python evaluates `float(bytes_read) / float(file_size)`
before the `min` clamp, and float division by zero raises
`ZeroDivisionError`; the raise is modelled as `none`. Division of
non-negative reals is modelled over the rationals (the quantities involved
are exact byte counts). -/
def percentFraction (bytesRead fileSize : Nat) : Option ℚ :=
  if fileSize = 0 then none
  else some (min ((bytesRead : ℚ) / (fileSize : ℚ)) 1)

/-! Concrete sample contexts, environments and API behaviors, used to
evaluate the development on closed inputs. -/

/-- A validated context addressing an existing dataset by UUID. -/
def ctxA : UploadContext :=
  { is_validated := true, dataset_uuid := some "du-1", dataset_name := none,
    should_update_dataset_with_telescope := false, telescope_uuid := none,
    custom_tags := none, is_raw_data := false, username := "alice",
    validate_tags := fun _ => true }

/-- A context that failed validation. -/
def ctxInvalidated : UploadContext :=
  { ctxA with is_validated := false }

/-- A validated context with neither dataset UUID nor dataset name. -/
def ctxNoDataset : UploadContext :=
  { ctxA with dataset_uuid := none, dataset_name := none }

/-- A validated context with only a dataset name. -/
def ctxNameOnly : UploadContext :=
  { ctxA with dataset_uuid := none, dataset_name := some "M31-survey" }

/-- A validated context with a dataset UUID, a telescope UUID and the
telescope resync flag set. -/
def ctxTel : UploadContext :=
  { ctxA with
    should_update_dataset_with_telescope := true,
    telescope_uuid := some "tel-1" }

def envA : UploaderEnv :=
  { root_path := "/data", file_name := "f1.fits", hostname := "host1", version := "3.0.0" }

def dsRec : DatasetRecord := { uuid := "new-uuid" }

def dfRec : DataFileRecord := { pk := some "pk-1" }

/-- A server error whose message contains the duplicate needle. -/
def errDup : ApiError :=
  { status := "400", message := "A data file with this name already exists in dataset du-1." }

/-- A server error without the duplicate needle. -/
def errBoom : ApiError := { status := "500", message := "upstream exploded" }

/-- A second distinct server error without the duplicate needle. -/
def errBoom2 : ApiError := { status := "502", message := "bad gateway" }

/-- All remote calls succeed. -/
def apiOk : ApiBehavior :=
  { datasets := fun _ => .ok dsRec,
    datafilesCreate := fun _ => .ok dfRec,
    datafilesUpdate := fun _ => .ok () }

/-- The transport call always reports the duplicate-file error. -/
def apiDup : ApiBehavior :=
  { apiOk with datafilesCreate := fun _ => .error errDup }

/-- The transport call always fails with a non-duplicate error. -/
def apiBoom : ApiBehavior :=
  { apiOk with
    datafilesCreate := fun n => if n = 0 then .error errBoom else .error errBoom2 }

/-- The datasets endpoint always fails. -/
def apiDatasetsFail : ApiBehavior :=
  { apiOk with
    datasets := fun n => if n = 0 then .error errBoom else .error errBoom2 }

/-- The metadata update call always fails. -/
def apiUpdateFail : ApiBehavior :=
  { apiOk with
    datafilesUpdate := fun n => if n = 0 then .error errBoom else .error errBoom2 }

/-- Claim C1: a transport failure whose error message contains the
substring "already exists in dataset" makes the upload step return without
raising with status (SKIPPED, ALREADY_SYNCED, None); at the uploadFile
level the Metadata Tagger is then never invoked and uploadFile returns the
SKIPPED status; any other transport failure sets status to
(ERROR, ERROR, None) and raises a transfer error carrying the server
status code and message. -/
theorem duplicate_detection_skips_and_other_failures_raise (env : UploaderEnv)
    (api : ApiBehavior) :
    (∀ (s : UploaderState) (e : ApiError),
      api.datafilesCreate (countDatafilesCreateApi s.trace) = .error e →
      ((strContains duplicateNeedle e.message = true →
          (performUpload env api s).2 = none ∧
          (performUpload env api s).1.status =
            (Status.SKIPPED, Substatus.ALREADY_SYNCED, none)) ∧
       (strContains duplicateNeedle e.message = false →
          (performUpload env api s).2 =
            some (UploadError.remoteFile (e.status ++ " - " ++ e.message)) ∧
          (performUpload env api s).1.status =
            (Status.ERROR, Substatus.ERROR, none)))) ∧
    (∀ (ctx : UploadContext) (is_raw : Option Bool) (custom_tags : Option (List String))
       (d : DatasetRecord) (e : ApiError),
      ctx.is_validated = true →
      strOptTruthy ctx.dataset_uuid = true →
      api.datasets 0 = .ok d →
      api.datafilesCreate 0 = .error e →
      strContains duplicateNeedle e.message = true →
      (uploadFile env api is_raw custom_tags ctx).2 = none ∧
      (uploadFile env api is_raw custom_tags ctx).1.status =
        (Status.SKIPPED, Substatus.ALREADY_SYNCED, none) ∧
      countPhaseMetadata (uploadFile env api is_raw custom_tags ctx).1.trace = 0 ∧
      countDatafilesUpdateApi (uploadFile env api is_raw custom_tags ctx).1.trace = 0) := by
  constructor
  · intro s e hresp
    constructor
    · intro hdup
      simp [performUpload, countDatafilesCreateApi, List.filter_append,
        Event.isDatafilesCreateApi, Event.isPhaseUpload] at hresp ⊢
      simp [hresp, hdup]
    · intro hdup
      simp [performUpload, countDatafilesCreateApi, List.filter_append,
        Event.isDatafilesCreateApi, Event.isPhaseUpload] at hresp ⊢
      simp [hresp, hdup]
  · intro ctx is_raw custom_tags d e hv hu hd he hdup
    cases hflag : ctx.should_update_dataset_with_telescope <;>
      simp [uploadFile, initState, retryOnce, prepareDataset, performUpload, hv, hu, hd, he,
        hdup, hflag, isRetryablePrep, isRetryableTransfer, countDatasetApi,
        countDatafilesCreateApi, countDatafilesUpdateApi, countPhaseMetadata,
        Event.isDatasetApi, Event.isDatafilesCreateApi, Event.isDatafilesUpdateApi,
        Event.isPhaseMetadata]

/-- Claim C1 witness: concrete duplicate and non-duplicate transport
failures, evaluated through the theorem. -/
theorem duplicate_detection_skips_and_other_failures_raise_witness :
    (apiDup.datafilesCreate (countDatafilesCreateApi (initState ctxA).trace) = .error errDup ∧
     strContains duplicateNeedle errDup.message = true ∧
     (performUpload envA apiDup (initState ctxA)).2 = none ∧
     (performUpload envA apiDup (initState ctxA)).1.status =
       (Status.SKIPPED, Substatus.ALREADY_SYNCED, none)) ∧
    (apiBoom.datafilesCreate (countDatafilesCreateApi (initState ctxA).trace) = .error errBoom ∧
     strContains duplicateNeedle errBoom.message = false ∧
     (performUpload envA apiBoom (initState ctxA)).2 =
       some (UploadError.remoteFile (errBoom.status ++ " - " ++ errBoom.message)) ∧
     (performUpload envA apiBoom (initState ctxA)).1.status =
       (Status.ERROR, Substatus.ERROR, none)) ∧
    (ctxA.is_validated = true ∧
     strOptTruthy ctxA.dataset_uuid = true ∧
     apiDup.datasets 0 = .ok dsRec ∧
     apiDup.datafilesCreate 0 = .error errDup ∧
     (uploadFile envA apiDup none none ctxA).2 = none ∧
     (uploadFile envA apiDup none none ctxA).1.status =
       (Status.SKIPPED, Substatus.ALREADY_SYNCED, none) ∧
     countPhaseMetadata (uploadFile envA apiDup none none ctxA).1.trace = 0 ∧
     countDatafilesUpdateApi (uploadFile envA apiDup none none ctxA).1.trace = 0) := by
  have hA := ((duplicate_detection_skips_and_other_failures_raise envA apiDup).1
    (initState ctxA) errDup rfl).1 (by decide)
  have hB := ((duplicate_detection_skips_and_other_failures_raise envA apiBoom).1
    (initState ctxA) errBoom rfl).2 (by decide)
  have hC := (duplicate_detection_skips_and_other_failures_raise envA apiDup).2
    ctxA none none dsRec errDup (by decide) (by decide) rfl rfl (by decide)
  exact ⟨⟨rfl, by decide, hA.1, hA.2⟩,
         ⟨rfl, by decide, hB.1, hB.2⟩,
         ⟨by decide, by decide, rfl, rfl,
          hC.1, hC.2.1, hC.2.2.1, hC.2.2.2⟩⟩

/-- Claim C2: for each of the three phases, a first failure with that
phase retryable error kind causes exactly one retry of that phase after a
one-second pause; when the retry also fails the phase error propagates
uncaught (carrying the second response) and no later phase runs. -/
theorem each_phase_single_retry_then_propagates (env : UploaderEnv) (api : ApiBehavior)
    (is_raw : Option Bool) (custom_tags : Option (List String)) (ctx : UploadContext)
    (hv : ctx.is_validated = true)
    (hu : strOptTruthy ctx.dataset_uuid = true) :
    (∀ e1 e2 : ApiError,
      api.datasets 0 = .error e1 → api.datasets 1 = .error e2 →
      (uploadFile env api is_raw custom_tags ctx).2 =
        some (UploadError.datasetPreparation e2.message) ∧
      countPhasePrepare (uploadFile env api is_raw custom_tags ctx).1.trace = 2 ∧
      sleepEvents (uploadFile env api is_raw custom_tags ctx).1.trace = [Event.sleep 1] ∧
      countPhaseUpload (uploadFile env api is_raw custom_tags ctx).1.trace = 0 ∧
      countPhaseMetadata (uploadFile env api is_raw custom_tags ctx).1.trace = 0) ∧
    (∀ (d : DatasetRecord) (e1 e2 : ApiError),
      api.datasets 0 = .ok d →
      api.datafilesCreate 0 = .error e1 → api.datafilesCreate 1 = .error e2 →
      strContains duplicateNeedle e1.message = false →
      strContains duplicateNeedle e2.message = false →
      (uploadFile env api is_raw custom_tags ctx).2 =
        some (UploadError.remoteFile (e2.status ++ " - " ++ e2.message)) ∧
      countPhaseUpload (uploadFile env api is_raw custom_tags ctx).1.trace = 2 ∧
      sleepEvents (uploadFile env api is_raw custom_tags ctx).1.trace = [Event.sleep 1] ∧
      countPhaseMetadata (uploadFile env api is_raw custom_tags ctx).1.trace = 0) ∧
    (∀ (d : DatasetRecord) (df : DataFileRecord) (e1 e2 : ApiError),
      api.datasets 0 = .ok d →
      api.datafilesCreate 0 = .ok df →
      api.datafilesUpdate 0 = .error e1 → api.datafilesUpdate 1 = .error e2 →
      (∀ ts, custom_tags = some ts → ctx.validate_tags ts = true) →
      (uploadFile env api is_raw custom_tags ctx).2 =
        some (UploadError.remoteFileMetadata e2.message) ∧
      countPhaseMetadata (uploadFile env api is_raw custom_tags ctx).1.trace = 2 ∧
      sleepEvents (uploadFile env api is_raw custom_tags ctx).1.trace = [Event.sleep 1] ∧
      countDatafilesUpdateApi (uploadFile env api is_raw custom_tags ctx).1.trace = 2) := by
  refine ⟨?_, ?_, ?_⟩
  · intro e1 e2 h0 h1
    cases hflag : ctx.should_update_dataset_with_telescope <;>
      simp [uploadFile, initState, retryOnce, prepareDataset, hv, hu, h0, h1, hflag,
        isRetryablePrep, countPhasePrepare, countPhaseUpload, countPhaseMetadata,
        countDatasetApi, sleepEvents, Event.isPhasePrepare, Event.isPhaseUpload,
        Event.isPhaseMetadata, Event.isDatasetApi, Event.isSleep]
  · intro d e1 e2 hd h0 h1 hnd1 hnd2
    cases hflag : ctx.should_update_dataset_with_telescope <;>
      simp [uploadFile, initState, retryOnce, prepareDataset, performUpload, hv, hu, hd,
        h0, h1, hnd1, hnd2, hflag, isRetryablePrep, isRetryableTransfer,
        countPhasePrepare, countPhaseUpload, countPhaseMetadata, countDatasetApi,
        countDatafilesCreateApi, sleepEvents, Event.isPhasePrepare, Event.isPhaseUpload,
        Event.isPhaseMetadata, Event.isDatasetApi, Event.isDatafilesCreateApi, Event.isSleep]
  · intro d df e1 e2 hd hc h0 h1 hval
    cases hct : custom_tags with
    | none =>
      cases hflag : ctx.should_update_dataset_with_telescope <;>
        simp [uploadFile, initState, retryOnce, prepareDataset, performUpload,
          updateFileMetadata, hv, hu, hd, hc, h0, h1, hflag, isRetryablePrep,
          isRetryableTransfer, isRetryableMetadata, countPhasePrepare, countPhaseUpload,
          countPhaseMetadata, countDatasetApi, countDatafilesCreateApi,
          countDatafilesUpdateApi, sleepEvents, Event.isPhasePrepare, Event.isPhaseUpload,
          Event.isPhaseMetadata, Event.isDatasetApi, Event.isDatafilesCreateApi,
          Event.isDatafilesUpdateApi, Event.isSleep]
    | some ts =>
      have hts : ctx.validate_tags ts = true := hval ts hct
      cases hflag : ctx.should_update_dataset_with_telescope <;>
        simp [uploadFile, initState, retryOnce, prepareDataset, performUpload,
          updateFileMetadata, hv, hu, hd, hc, h0, h1, hts, hflag, isRetryablePrep,
          isRetryableTransfer, isRetryableMetadata, countPhasePrepare, countPhaseUpload,
          countPhaseMetadata, countDatasetApi, countDatafilesCreateApi,
          countDatafilesUpdateApi, sleepEvents, Event.isPhasePrepare, Event.isPhaseUpload,
          Event.isPhaseMetadata, Event.isDatasetApi, Event.isDatafilesCreateApi,
          Event.isDatafilesUpdateApi, Event.isSleep]

/-- Claim C2 witness: double failures of each phase on concrete API
behaviors, evaluated through the theorem. -/
theorem each_phase_single_retry_then_propagates_witness :
    (ctxA.is_validated = true ∧
     strOptTruthy ctxA.dataset_uuid = true) ∧
    (apiDatasetsFail.datasets 0 = .error errBoom ∧
     apiDatasetsFail.datasets 1 = .error errBoom2 ∧
     (uploadFile envA apiDatasetsFail none none ctxA).2 =
       some (UploadError.datasetPreparation errBoom2.message) ∧
     countPhasePrepare (uploadFile envA apiDatasetsFail none none ctxA).1.trace = 2 ∧
     sleepEvents (uploadFile envA apiDatasetsFail none none ctxA).1.trace = [Event.sleep 1] ∧
     countPhaseUpload (uploadFile envA apiDatasetsFail none none ctxA).1.trace = 0 ∧
     countPhaseMetadata (uploadFile envA apiDatasetsFail none none ctxA).1.trace = 0) ∧
    (apiBoom.datafilesCreate 0 = .error errBoom ∧
     apiBoom.datafilesCreate 1 = .error errBoom2 ∧
     (uploadFile envA apiBoom none none ctxA).2 =
       some (UploadError.remoteFile (errBoom2.status ++ " - " ++ errBoom2.message)) ∧
     countPhaseUpload (uploadFile envA apiBoom none none ctxA).1.trace = 2 ∧
     sleepEvents (uploadFile envA apiBoom none none ctxA).1.trace = [Event.sleep 1] ∧
     countPhaseMetadata (uploadFile envA apiBoom none none ctxA).1.trace = 0) ∧
    (apiUpdateFail.datafilesUpdate 0 = .error errBoom ∧
     apiUpdateFail.datafilesUpdate 1 = .error errBoom2 ∧
     (uploadFile envA apiUpdateFail none none ctxA).2 =
       some (UploadError.remoteFileMetadata errBoom2.message) ∧
     countPhaseMetadata (uploadFile envA apiUpdateFail none none ctxA).1.trace = 2 ∧
     sleepEvents (uploadFile envA apiUpdateFail none none ctxA).1.trace = [Event.sleep 1] ∧
     countDatafilesUpdateApi (uploadFile envA apiUpdateFail none none ctxA).1.trace = 2) := by
  have hA := (each_phase_single_retry_then_propagates envA apiDatasetsFail none none ctxA
    (by decide) (by decide)).1 errBoom errBoom2 rfl rfl
  have hB := (each_phase_single_retry_then_propagates envA apiBoom none none ctxA
    (by decide) (by decide)).2.1 dsRec errBoom errBoom2
    rfl rfl rfl (by decide) (by decide)
  have hC := (each_phase_single_retry_then_propagates envA apiUpdateFail none none ctxA
    (by decide) (by decide)).2.2 dsRec dfRec errBoom errBoom2
    rfl rfl rfl rfl (fun ts h => Option.noConfusion h)
  exact ⟨⟨by decide, by decide⟩,
         ⟨rfl, rfl, hA.1, hA.2.1, hA.2.2.1, hA.2.2.2.1, hA.2.2.2.2⟩,
         ⟨rfl, rfl, hB.1, hB.2.1, hB.2.2.1, hB.2.2.2⟩,
         ⟨rfl, rfl, hC.1, hC.2.1, hC.2.2.1, hC.2.2.2⟩⟩

/-- Claim C3: with a context whose validation flag is not true, uploadFile
fails immediately with the invalidated-context error, issues no network
call (empty trace, hence no resolver, transport or tagger invocation), and
the status is still the initial (NEW, PENDING, None). -/
theorem invalidated_context_fails_immediately (env : UploaderEnv) (api : ApiBehavior)
    (is_raw : Option Bool) (custom_tags : Option (List String)) (ctx : UploadContext)
    (hv : ctx.is_validated = false) :
    (uploadFile env api is_raw custom_tags ctx).2 = some UploadError.invalidatedContext ∧
    (uploadFile env api is_raw custom_tags ctx).1.trace = [] ∧
    (uploadFile env api is_raw custom_tags ctx).1.status =
      (Status.NEW, Substatus.PENDING, none) := by
  simp [uploadFile, initState, hv]

/-- Claim C3 witness: a concrete invalidated context, evaluated through the
theorem. -/
theorem invalidated_context_fails_immediately_witness :
    ctxInvalidated.is_validated = false ∧
    (uploadFile envA apiOk none none ctxInvalidated).2 =
      some UploadError.invalidatedContext ∧
    (uploadFile envA apiOk none none ctxInvalidated).1.trace = [] ∧
    (uploadFile envA apiOk none none ctxInvalidated).1.status =
      (Status.NEW, Substatus.PENDING, none) :=
  ⟨by decide, invalidated_context_fails_immediately envA apiOk none none ctxInvalidated
    (by decide)⟩

/-- Claim C4: with a validated context carrying neither a dataset UUID nor
a dataset name, uploadFile fails with the dataset-check error, the
resolver phase is entered exactly once (never retried, no sleep), no
dataset API call is issued, and no later phase runs. -/
theorem missing_dataset_identifier_never_retried (env : UploaderEnv) (api : ApiBehavior)
    (is_raw : Option Bool) (custom_tags : Option (List String)) (ctx : UploadContext)
    (hv : ctx.is_validated = true)
    (hu : strOptTruthy ctx.dataset_uuid = false)
    (hn : strOptTruthy ctx.dataset_name = false) :
    (uploadFile env api is_raw custom_tags ctx).2 =
      some (UploadError.datasetCheck "No dataset specified.") ∧
    countPhasePrepare (uploadFile env api is_raw custom_tags ctx).1.trace = 1 ∧
    countDatasetApi (uploadFile env api is_raw custom_tags ctx).1.trace = 0 ∧
    sleepEvents (uploadFile env api is_raw custom_tags ctx).1.trace = [] ∧
    countPhaseUpload (uploadFile env api is_raw custom_tags ctx).1.trace = 0 ∧
    countPhaseMetadata (uploadFile env api is_raw custom_tags ctx).1.trace = 0 := by
  simp [uploadFile, initState, retryOnce, prepareDataset, hv, hu, hn, isRetryablePrep,
    countPhasePrepare, countDatasetApi, sleepEvents, countPhaseUpload, countPhaseMetadata,
    Event.isPhasePrepare, Event.isDatasetApi, Event.isSleep, Event.isPhaseUpload,
    Event.isPhaseMetadata]

/-- Claim C4 witness: a concrete context without any dataset identifier,
evaluated through the theorem. -/
theorem missing_dataset_identifier_never_retried_witness :
    (ctxNoDataset.is_validated = true ∧
     strOptTruthy ctxNoDataset.dataset_uuid = false ∧
     strOptTruthy ctxNoDataset.dataset_name = false) ∧
    (uploadFile envA apiOk none none ctxNoDataset).2 =
      some (UploadError.datasetCheck "No dataset specified.") ∧
    countPhasePrepare (uploadFile envA apiOk none none ctxNoDataset).1.trace = 1 ∧
    countDatasetApi (uploadFile envA apiOk none none ctxNoDataset).1.trace = 0 ∧
    sleepEvents (uploadFile envA apiOk none none ctxNoDataset).1.trace = [] ∧
    countPhaseUpload (uploadFile envA apiOk none none ctxNoDataset).1.trace = 0 ∧
    countPhaseMetadata (uploadFile envA apiOk none none ctxNoDataset).1.trace = 0 :=
  ⟨⟨by decide, by decide, by decide⟩,
   missing_dataset_identifier_never_retried envA apiOk none none ctxNoDataset
     (by decide) (by decide) (by decide)⟩

/-- Claim C5: dataset resolution branches with UUID precedence: with a
dataset UUID it issues an update carrying the telescope identifier when the
resync flag is set, otherwise a plain read, and never a create; with only a
dataset name it issues a single create whose payload carries the name (and
the telescope identifier exactly when the resync flag is set) and on
success writes the returned dataset record back into the shared context;
and on each of these paths an API error is wrapped as a retryable
dataset-preparation error. -/
theorem dataset_resolution_branching (api : ApiBehavior) (s : UploaderState) :
    (s.context.should_update_dataset_with_telescope = true →
      strOptTruthy s.context.dataset_uuid = true →
      (prepareDataset api s).1.trace =
        s.trace ++ [Event.phasePrepare,
          Event.api (ApiCall.datasetsUpdate (s.context.dataset_uuid.getD "")
            { name := none, telescope := some s.context.telescope_uuid })] ∧
      countDatasetsCreateApi (prepareDataset api s).1.trace =
        countDatasetsCreateApi s.trace) ∧
    (s.context.should_update_dataset_with_telescope = false →
      strOptTruthy s.context.dataset_uuid = true →
      (prepareDataset api s).1.trace =
        s.trace ++ [Event.phasePrepare,
          Event.api (ApiCall.datasetsRead (s.context.dataset_uuid.getD ""))] ∧
      countDatasetsCreateApi (prepareDataset api s).1.trace =
        countDatasetsCreateApi s.trace) ∧
    (strOptTruthy s.context.dataset_uuid = false →
      strOptTruthy s.context.dataset_name = true →
      (prepareDataset api s).1.trace =
        s.trace ++ [Event.phasePrepare,
          Event.api (ApiCall.datasetsCreate
            { name := s.context.dataset_name,
              telescope :=
                if s.context.should_update_dataset_with_telescope then
                  some s.context.telescope_uuid
                else none })] ∧
      (∀ d : DatasetRecord, api.datasets (countDatasetApi s.trace) = .ok d →
        (prepareDataset api s).2 = none ∧
        (prepareDataset api s).1.context.dataset_uuid = some d.uuid)) ∧
    ((strOptTruthy s.context.dataset_uuid = true ∨
      strOptTruthy s.context.dataset_name = true) →
      ∀ e : ApiError, api.datasets (countDatasetApi s.trace) = .error e →
      (prepareDataset api s).2 = some (UploadError.datasetPreparation e.message) ∧
      isRetryablePrep (UploadError.datasetPreparation e.message) = true) := by
  refine ⟨?_, ?_, ?_, ?_⟩
  · intro hflag hu
    cases hresp : api.datasets (countDatasetApi s.trace) <;>
      simp only [countDatasetApi] at hresp <;>
      simp [prepareDataset, hu, hflag, countDatasetApi, countDatasetsCreateApi,
        List.filter_append, Event.isDatasetApi, Event.isDatasetsCreateApi, hresp]
  · intro hflag hu
    cases hresp : api.datasets (countDatasetApi s.trace) <;>
      simp only [countDatasetApi] at hresp <;>
      simp [prepareDataset, hu, hflag, countDatasetApi, countDatasetsCreateApi,
        List.filter_append, Event.isDatasetApi, Event.isDatasetsCreateApi, hresp]
  · intro hu hn
    refine ⟨?_, ?_⟩
    · cases hresp : api.datasets (countDatasetApi s.trace) <;>
        simp only [countDatasetApi] at hresp <;>
        simp [prepareDataset, updateDataset, hu, hn, countDatasetApi,
          List.filter_append, Event.isDatasetApi, hresp]
    · intro d hresp
      simp only [countDatasetApi] at hresp
      simp [prepareDataset, updateDataset, hu, hn, countDatasetApi,
        List.filter_append, Event.isDatasetApi, hresp]
  · rintro (hu | hn) e hresp
    · simp only [countDatasetApi] at hresp
      cases hflag : s.context.should_update_dataset_with_telescope <;>
        simp [prepareDataset, hu, hflag, isRetryablePrep, countDatasetApi,
          List.filter_append, Event.isDatasetApi, hresp]
    · simp only [countDatasetApi] at hresp
      by_cases hu2 : strOptTruthy s.context.dataset_uuid = true
      · cases hflag : s.context.should_update_dataset_with_telescope <;>
          simp [prepareDataset, hu2, hflag, isRetryablePrep, countDatasetApi,
            List.filter_append, Event.isDatasetApi, hresp]
      · simp only [Bool.not_eq_true] at hu2
        simp [prepareDataset, hu2, hn, isRetryablePrep, countDatasetApi,
          List.filter_append, Event.isDatasetApi, hresp]

/-- Claim C5 witness: the update, read and create branches and the error
wrapping on concrete contexts, evaluated through the theorem. -/
theorem dataset_resolution_branching_witness :
    (ctxTel.should_update_dataset_with_telescope = true ∧
     strOptTruthy ctxTel.dataset_uuid = true ∧
     (prepareDataset apiOk (initState ctxTel)).1.trace =
       [Event.phasePrepare,
        Event.api (ApiCall.datasetsUpdate "du-1"
          { name := none, telescope := some (some "tel-1") })] ∧
     countDatasetsCreateApi (prepareDataset apiOk (initState ctxTel)).1.trace = 0) ∧
    (ctxA.should_update_dataset_with_telescope = false ∧
     strOptTruthy ctxA.dataset_uuid = true ∧
     (prepareDataset apiOk (initState ctxA)).1.trace =
       [Event.phasePrepare, Event.api (ApiCall.datasetsRead "du-1")] ∧
     countDatasetsCreateApi (prepareDataset apiOk (initState ctxA)).1.trace = 0) ∧
    (strOptTruthy ctxNameOnly.dataset_uuid = false ∧
     strOptTruthy ctxNameOnly.dataset_name = true ∧
     apiOk.datasets 0 = .ok dsRec ∧
     (prepareDataset apiOk (initState ctxNameOnly)).1.trace =
       [Event.phasePrepare,
        Event.api (ApiCall.datasetsCreate
          { name := some "M31-survey", telescope := none })] ∧
     (prepareDataset apiOk (initState ctxNameOnly)).2 = none ∧
     (prepareDataset apiOk (initState ctxNameOnly)).1.context.dataset_uuid =
       some "new-uuid") ∧
    (apiDatasetsFail.datasets 0 = .error errBoom ∧
     (prepareDataset apiDatasetsFail (initState ctxA)).2 =
       some (UploadError.datasetPreparation errBoom.message) ∧
     isRetryablePrep (UploadError.datasetPreparation errBoom.message) = true) := by
  have hA := (dataset_resolution_branching apiOk (initState ctxTel)).1
    (by decide) (by decide)
  have hB := (dataset_resolution_branching apiOk (initState ctxA)).2.1
    (by decide) (by decide)
  have hCmain := (dataset_resolution_branching apiOk (initState ctxNameOnly)).2.2.1
    (by decide) (by decide)
  have hCok := hCmain.2 dsRec rfl
  have hD := (dataset_resolution_branching apiDatasetsFail (initState ctxA)).2.2.2
    (Or.inl (by decide)) errBoom rfl
  exact ⟨⟨by decide, by decide, hA.1, hA.2⟩,
         ⟨by decide, by decide, hB.1, hB.2⟩,
         ⟨by decide, by decide, rfl, hCmain.1, hCok.1, hCok.2⟩,
         ⟨rfl, hD.1, hD.2⟩⟩

/-- Claim C6: the claim states that a total file size of 0 yields fraction
1.0 without a division error; in the source, percent printing computes
float(bytes_read) / float(file_size) before the min clamp, and Python float
division by zero raises ZeroDivisionError, so the zero-size case raises
instead of clamping (modelled as the none result); the clamp only caps
fractions above 1 for nonzero sizes. -/
theorem zero_size_progress_division_raises :
    percentFraction 0 0 = none ∧ percentFraction 100 0 = none ∧
    percentFraction 512 1024 = some (1 / 2) ∧ percentFraction 2048 1024 = some 1 := by
  refine ⟨rfl, rfl, ?_, ?_⟩ <;> norm_num [percentFraction]

/-- Claim C7: on a fully successful run the status returned by uploadFile
is (OK, DONE, None), set by the metadata-tagging phase (which ran exactly
once); and a failing metadata update sets status to (ERROR, ERROR, None)
and raises a metadata error. -/
theorem success_status_ok_done_and_metadata_failure (env : UploaderEnv) (api : ApiBehavior)
    (is_raw : Option Bool) (custom_tags : Option (List String)) :
    (∀ (ctx : UploadContext) (d : DatasetRecord) (df : DataFileRecord),
      ctx.is_validated = true →
      strOptTruthy ctx.dataset_uuid = true →
      api.datasets 0 = .ok d →
      api.datafilesCreate 0 = .ok df →
      api.datafilesUpdate 0 = .ok () →
      (∀ ts, custom_tags = some ts → ctx.validate_tags ts = true) →
      (uploadFile env api is_raw custom_tags ctx).2 = none ∧
      (uploadFile env api is_raw custom_tags ctx).1.status =
        (Status.OK, Substatus.DONE, none) ∧
      countPhaseMetadata (uploadFile env api is_raw custom_tags ctx).1.trace = 1) ∧
    (∀ (s : UploaderState) (e : ApiError),
      (∀ ts, custom_tags = some ts → s.context.validate_tags ts = true) →
      api.datafilesUpdate (countDatafilesUpdateApi s.trace) = .error e →
      (updateFileMetadata env api is_raw custom_tags s).2 =
        some (UploadError.remoteFileMetadata e.message) ∧
      (updateFileMetadata env api is_raw custom_tags s).1.status =
        (Status.ERROR, Substatus.ERROR, none)) := by
  constructor
  · intro ctx d df hv hu hd hc hm hval
    cases hct : custom_tags with
    | none =>
      cases hflag : ctx.should_update_dataset_with_telescope <;>
        simp [uploadFile, initState, retryOnce, prepareDataset, performUpload,
          updateFileMetadata, hv, hu, hd, hc, hm, hct, hflag, isRetryablePrep,
          isRetryableTransfer, isRetryableMetadata, countDatasetApi, countDatafilesCreateApi,
          countDatafilesUpdateApi, countPhaseMetadata, Event.isDatasetApi,
          Event.isDatafilesCreateApi, Event.isDatafilesUpdateApi, Event.isPhaseMetadata]
    | some ts =>
      have hts : ctx.validate_tags ts = true := hval ts hct
      cases hflag : ctx.should_update_dataset_with_telescope <;>
        simp [uploadFile, initState, retryOnce, prepareDataset, performUpload,
          updateFileMetadata, hv, hu, hd, hc, hm, hct, hts, hflag, isRetryablePrep,
          isRetryableTransfer, isRetryableMetadata, countDatasetApi, countDatafilesCreateApi,
          countDatafilesUpdateApi, countPhaseMetadata, Event.isDatasetApi,
          Event.isDatafilesCreateApi, Event.isDatafilesUpdateApi, Event.isPhaseMetadata]
  · intro s e hval hresp
    simp only [countDatafilesUpdateApi] at hresp
    cases hct : custom_tags with
    | none =>
      simp [updateFileMetadata, hct, countDatafilesUpdateApi, List.filter_append,
        Event.isDatafilesUpdateApi, Event.isPhaseMetadata, hresp]
    | some ts =>
      have hts : s.context.validate_tags ts = true := hval ts hct
      simp [updateFileMetadata, hct, hts, countDatafilesUpdateApi, List.filter_append,
        Event.isDatafilesUpdateApi, Event.isPhaseMetadata, hresp]

/-- Claim C7 witness: a fully successful concrete run and a concrete
metadata failure, evaluated through the theorem. -/
theorem success_status_ok_done_and_metadata_failure_witness :
    (ctxA.is_validated = true ∧
     strOptTruthy ctxA.dataset_uuid = true ∧
     apiOk.datasets 0 = .ok dsRec ∧
     apiOk.datafilesCreate 0 = .ok dfRec ∧
     apiOk.datafilesUpdate 0 = .ok () ∧
     (uploadFile envA apiOk none none ctxA).2 = none ∧
     (uploadFile envA apiOk none none ctxA).1.status =
       (Status.OK, Substatus.DONE, none) ∧
     countPhaseMetadata (uploadFile envA apiOk none none ctxA).1.trace = 1) ∧
    (apiUpdateFail.datafilesUpdate
       (countDatafilesUpdateApi (initState ctxA).trace) = .error errBoom ∧
     (updateFileMetadata envA apiUpdateFail none none (initState ctxA)).2 =
       some (UploadError.remoteFileMetadata errBoom.message) ∧
     (updateFileMetadata envA apiUpdateFail none none (initState ctxA)).1.status =
       (Status.ERROR, Substatus.ERROR, none)) := by
  have hA := (success_status_ok_done_and_metadata_failure envA apiOk none none).1
    ctxA dsRec dfRec (by decide) (by decide) rfl rfl rfl
    (fun ts h => Option.noConfusion h)
  have hB := (success_status_ok_done_and_metadata_failure envA apiUpdateFail none none).2
    (initState ctxA) errBoom (fun ts h => Option.noConfusion h) rfl
  exact ⟨⟨by decide, by decide, rfl, rfl, rfl, hA.1, hA.2.1, hA.2.2⟩,
         ⟨rfl, hB.1, hB.2⟩⟩

/-- Claim C8: the tag list is built deterministically in the stable order
root, origin, uploader, version, then a telescope tag exactly when the
context telescope UUID is truthy, then the call-argument custom tags with
the context custom tags used only when no call argument is supplied; and
the metadata phase records the request payload as a pure function of the
environment, context, raw flag and custom tags, so two invocations with
identical inputs record identical payloads. -/
theorem tag_list_order_and_payload_determinism (env : UploaderEnv) (api : ApiBehavior)
    (ctx : UploadContext) (is_raw : Option Bool) (custom_tags : Option (List String)) :
    (buildTags env ctx custom_tags =
      ["arcsecond|root|" ++ env.root_path,
       "arcsecond|origin|" ++ env.hostname,
       "arcsecond|uploader|" ++ ctx.username,
       "arcsecond|version|" ++ env.version]
      ++ (if strOptTruthy ctx.telescope_uuid then
            ["arcsecond|telescope|" ++ ctx.telescope_uuid.getD ""]
          else [])
      ++ custom_tags.getD (ctx.custom_tags.getD [])) ∧
    (∀ s : UploaderState, s.context = ctx →
      (∀ ts, custom_tags = some ts → ctx.validate_tags ts = true) →
      (updateFileMetadata env api is_raw custom_tags s).1.trace =
        s.trace ++ [Event.phaseMetadata,
          Event.api (ApiCall.datafilesUpdate (s.datafile.bind fun d => d.pk)
            (metadataPayload env ctx is_raw custom_tags))]) := by
  constructor
  · cases htel : strOptTruthy ctx.telescope_uuid <;>
      cases hct : custom_tags <;>
      cases hctx : ctx.custom_tags <;>
      simp [buildTags, hctx, htel]
  · intro s hs hval
    subst hs
    cases hct : custom_tags with
    | none =>
      cases hresp :
          api.datafilesUpdate (countDatafilesUpdateApi (s.trace ++ [Event.phaseMetadata])) <;>
        simp [updateFileMetadata, hct, hresp]
    | some ts =>
      have hts : s.context.validate_tags ts = true := hval ts hct
      cases hresp :
          api.datafilesUpdate (countDatafilesUpdateApi (s.trace ++ [Event.phaseMetadata])) <;>
        simp [updateFileMetadata, hct, hts, hresp]

/-- Claim C8 witness: the tag list of a concrete telescope context with a
call-argument custom tag, and the recorded payload of a concrete metadata
invocation, evaluated through the theorem. -/
theorem tag_list_order_and_payload_determinism_witness :
    buildTags envA ctxTel (some ["project:x"]) =
      ["arcsecond|root|/data", "arcsecond|origin|host1", "arcsecond|uploader|alice",
       "arcsecond|version|3.0.0", "arcsecond|telescope|tel-1", "project:x"] ∧
    (updateFileMetadata envA apiOk none none (initState ctxA)).1.trace =
      [Event.phaseMetadata,
       Event.api (ApiCall.datafilesUpdate none (metadataPayload envA ctxA none none))] := by
  have hA := (tag_list_order_and_payload_determinism envA apiOk ctxTel none
    (some ["project:x"])).1
  have hB := (tag_list_order_and_payload_determinism envA apiOk ctxA none none).2
    (initState ctxA) rfl (fun ts h => Option.noConfusion h)
  exact ⟨hA, hB⟩

/-- Claim C10: when dataset creation succeeds on the name-only path and a
later phase then fails twice so that uploadFile raises, the dataset UUID
written back into the shared context by the resolver persists in the final
state: the context mutation is not rolled back on either error path. -/
theorem dataset_writeback_persists_across_failures (env : UploaderEnv) (api : ApiBehavior)
    (is_raw : Option Bool) (ctx : UploadContext) (d : DatasetRecord)
    (hv : ctx.is_validated = true)
    (hu : strOptTruthy ctx.dataset_uuid = false)
    (hn : strOptTruthy ctx.dataset_name = true)
    (hd : api.datasets 0 = .ok d) :
    (∀ e1 e2 : ApiError,
      api.datafilesCreate 0 = .error e1 → api.datafilesCreate 1 = .error e2 →
      strContains duplicateNeedle e1.message = false →
      strContains duplicateNeedle e2.message = false →
      (uploadFile env api is_raw none ctx).2 =
        some (UploadError.remoteFile (e2.status ++ " - " ++ e2.message)) ∧
      (uploadFile env api is_raw none ctx).1.context.dataset_uuid = some d.uuid) ∧
    (∀ (df : DataFileRecord) (e1 e2 : ApiError),
      api.datafilesCreate 0 = .ok df →
      api.datafilesUpdate 0 = .error e1 → api.datafilesUpdate 1 = .error e2 →
      (uploadFile env api is_raw none ctx).2 =
        some (UploadError.remoteFileMetadata e2.message) ∧
      (uploadFile env api is_raw none ctx).1.context.dataset_uuid = some d.uuid) := by
  constructor
  · intro e1 e2 h0 h1 hnd1 hnd2
    cases hflag : ctx.should_update_dataset_with_telescope <;>
      simp [uploadFile, initState, retryOnce, prepareDataset, performUpload, updateDataset,
        hv, hu, hn, hd, h0, h1, hnd1, hnd2, hflag, isRetryablePrep, isRetryableTransfer,
        countDatasetApi, countDatafilesCreateApi, Event.isDatasetApi,
        Event.isDatafilesCreateApi]
  · intro df e1 e2 hc h0 h1
    cases hflag : ctx.should_update_dataset_with_telescope <;>
      simp [uploadFile, initState, retryOnce, prepareDataset, performUpload,
        updateFileMetadata, updateDataset, hv, hu, hn, hd, hc, h0, h1, hflag,
        isRetryablePrep, isRetryableTransfer, isRetryableMetadata, countDatasetApi,
        countDatafilesCreateApi, countDatafilesUpdateApi, Event.isDatasetApi,
        Event.isDatafilesCreateApi, Event.isDatafilesUpdateApi]

/-- Claim C10 witness: concrete double failures of the transport and of the
metadata phase after a successful name-only dataset creation, evaluated
through the theorem. -/
theorem dataset_writeback_persists_across_failures_witness :
    (ctxNameOnly.is_validated = true ∧
     strOptTruthy ctxNameOnly.dataset_uuid = false ∧
     strOptTruthy ctxNameOnly.dataset_name = true) ∧
    (apiBoom.datasets 0 = .ok dsRec ∧
     apiBoom.datafilesCreate 0 = .error errBoom ∧
     apiBoom.datafilesCreate 1 = .error errBoom2 ∧
     (uploadFile envA apiBoom none none ctxNameOnly).2 =
       some (UploadError.remoteFile (errBoom2.status ++ " - " ++ errBoom2.message)) ∧
     (uploadFile envA apiBoom none none ctxNameOnly).1.context.dataset_uuid =
       some "new-uuid") ∧
    (apiUpdateFail.datasets 0 = .ok dsRec ∧
     apiUpdateFail.datafilesCreate 0 = .ok dfRec ∧
     apiUpdateFail.datafilesUpdate 0 = .error errBoom ∧
     apiUpdateFail.datafilesUpdate 1 = .error errBoom2 ∧
     (uploadFile envA apiUpdateFail none none ctxNameOnly).2 =
       some (UploadError.remoteFileMetadata errBoom2.message) ∧
     (uploadFile envA apiUpdateFail none none ctxNameOnly).1.context.dataset_uuid =
       some "new-uuid") := by
  have hA := (dataset_writeback_persists_across_failures envA apiBoom none ctxNameOnly dsRec
    (by decide) (by decide) (by decide) rfl).1 errBoom errBoom2 rfl rfl
    (by decide) (by decide)
  have hB := (dataset_writeback_persists_across_failures envA apiUpdateFail none ctxNameOnly
    dsRec (by decide) (by decide) (by decide) rfl).2 dfRec errBoom errBoom2 rfl rfl rfl
  exact ⟨⟨by decide, by decide, by decide⟩,
         ⟨rfl, rfl, rfl, hA.1, hA.2⟩,
         ⟨rfl, rfl, rfl, rfl, hB.1, hB.2⟩⟩

end ArcsecondUploader
